import Mathlib

/-!
Verification development for the AD management tool (`helpers.py`,
`UserEditor/helpers.py`, `UserEditor/user_window.py`).

Python strings are modelled as `List Char`; LDAP search results as
`Except Unit (List Str)` (`.error` models a raised exception, the
entry list only ever matters through emptiness, so entries are bare
strings); Python `None`-returning functions as `Option`.
-/

abbrev Str := List Char

/-- Search collaborator: one directory round trip per candidate; `.error`
models the `except Exception` path of the source. -/
abbrev SearchFn := Str → Except Unit (List Str)

/-- Characters stripped by Python `str.strip()` (ASCII whitespace). -/
def isPySpace (c : Char) : Bool := c.toNat ∈ [9, 10, 11, 12, 13, 32]

/-- Python `s.strip()`: drop leading and trailing whitespace. -/
def pyStrip (s : Str) : Str :=
  ((s.dropWhile isPySpace).reverse.dropWhile isPySpace).reverse

/-- ASCII case mapping of one character, as done by `str.lower()` on the
ASCII names the tool handles. -/
def lowerChar (c : Char) : Char :=
  if 65 ≤ c.toNat ∧ c.toNat ≤ 90 then Char.ofNat (c.toNat + 32) else c

/-- Python `s.lower()` (ASCII fragment). -/
def pyLower (s : Str) : Str := s.map lowerChar

/-- Python `s[:k]` for a possibly negative bound `k`. -/
def pySliceTo (s : Str) (k : Int) : Str :=
  if 0 ≤ k then s.take k.toNat else s.take ((s.length : Int) + k).toNat

/-- Decimal rendering of a natural, Python `str(n)`. -/
def natStr (n : Nat) : Str := (toString n).data

/-! Python arbitrary-precision integer bitwise operators (`|`, `&`, `~`),
implemented with an executable two's-complement model:
`natOrGo`/`natAndGo`/`natDiffGo` are fuelled binary recursions on the
non-negative part (fuel `a + 1` always dominates the bit length of `a`). -/

def natOrGo : Nat → Nat → Nat → Nat
  | 0, _, b => b
  | f + 1, a, b =>
    if a = 0 then b
    else (if a % 2 = 1 ∨ b % 2 = 1 then 1 else 0) + 2 * natOrGo f (a / 2) (b / 2)

def natAndGo : Nat → Nat → Nat → Nat
  | 0, _, _ => 0
  | f + 1, a, b =>
    if a = 0 ∨ b = 0 then 0
    else (a % 2) * (b % 2) + 2 * natAndGo f (a / 2) (b / 2)

/-- Bits of `a` with the corresponding bit of `b` cleared (`a AND NOT b`). -/
def natDiffGo : Nat → Nat → Nat → Nat
  | 0, _, _ => 0
  | f + 1, a, b =>
    if a = 0 then 0
    else (a % 2) * (1 - b % 2) + 2 * natDiffGo f (a / 2) (b / 2)

def natOr (a b : Nat) : Nat := natOrGo (a + 1) a b
def natAnd (a b : Nat) : Nat := natAndGo (a + 1) a b
def natDiff (a b : Nat) : Nat := natDiffGo (a + 1) a b

/-- Python `~a`. -/
def pyNot (a : Int) : Int := -(a + 1)

/-- Python `a | b` on ints (two's complement). -/
def pyOr (a b : Int) : Int :=
  if 0 ≤ a then
    if 0 ≤ b then Int.ofNat (natOr a.toNat b.toNat)
    else pyNot (Int.ofNat (natDiff (pyNot b).toNat a.toNat))
  else
    if 0 ≤ b then pyNot (Int.ofNat (natDiff (pyNot a).toNat b.toNat))
    else pyNot (Int.ofNat (natAnd (pyNot a).toNat (pyNot b).toNat))

/-- Python `a & b` on ints (two's complement). -/
def pyAnd (a b : Int) : Int :=
  if 0 ≤ a then
    if 0 ≤ b then Int.ofNat (natAnd a.toNat b.toNat)
    else Int.ofNat (natDiff a.toNat (pyNot b).toNat)
  else
    if 0 ≤ b then Int.ofNat (natDiff b.toNat (pyNot a).toNat)
    else pyNot (Int.ofNat (natOr (pyNot a).toNat (pyNot b).toNat))

example : pyOr 512 2 = 514 := by decide
example : pyAnd 514 (pyNot 2) = 512 := by decide
example : pyAnd 514 (pyNot 65536) = 514 := by decide
example : pyAnd 514 (pyNot 64) = 514 := by decide
example : pyOr 66048 2 = 66050 := by decide

/-! ## `src/helpers.py` (top-level helpers module) -/

namespace Helpers

/-- Embeds `check_sam_account_exists(sam_account, ldap_conn)`: a forest-wide
search for the exact name; `bool(ldap_conn.entries)` on success, and the
`except Exception: return False` branch on a raised search. -/
def check_sam_account_exists (sam : Str) (search : SearchFn) : Bool :=
  match search sam with
  | .ok entries => !entries.isEmpty
  | .error _ => false

/-- Candidate list built by `auto_generate_sam_account` in `src/helpers.py`
(lines 55-70): `first.last`, `firstinitial.last`, `firsttwoinitials.last`,
each kept only when non-empty, at most 20 characters, and not a repeat. -/
def samCandidates (first last : Str) : List Str :=
  let cand1 := first ++ '.' :: last
  let cands := if cand1.length ≤ 20 then [cand1] else []
  let cand2 := if first ≠ [] then first.take 1 ++ '.' :: last else []
  let cands := if cand2 ≠ [] ∧ cand2.length ≤ 20 ∧ cand2 ∉ cands then cands ++ [cand2] else cands
  let cand3 := if 2 ≤ first.length then first.take 2 ++ '.' :: last else cand2
  let cands := if cand3 ≠ [] ∧ cand3.length ≤ 20 ∧ cand3 ∉ cands then cands ++ [cand3] else cands
  cands

/-- Embeds `auto_generate_sam_account(first, last, ldap_conn)` of
`src/helpers.py`: lower-case and strip both names, build the candidate
list, and return the first candidate the directory does not report as
existing (`None` when all are taken). -/
def auto_generate_sam_account (first last : Str) (search : SearchFn) : Option Str :=
  (samCandidates (pyStrip (pyLower first)) (pyStrip (pyLower last))).find?
    (fun c => !check_sam_account_exists c search)

end Helpers

/-! ## `src/UserEditor/helpers.py` -/

namespace UEHelpers

/-- The `valid_chars` set of `auto_generate_sam_account`:
`string.ascii_lowercase + string.digits + ".-_"`. -/
def valid_chars : Str := "abcdefghijklmnopqrstuvwxyz0123456789.-_".data

/-- Character replacement of line 70: keep characters of `valid_chars`,
replace everything else with `'.'`. -/
def sanitize (s : Str) : Str := s.map (fun c => if c ∈ valid_chars then c else '.')

/-- Embeds `is_sam_account_unique(ldap_conn, sam_account)`: `False` for an
empty name, `len(entries) == 0` on a successful search, and `False` on the
`except Exception` branch (errors counted as "not unique"). -/
def is_sam_account_unique (search : SearchFn) (sam : Str) : Bool :=
  if sam = [] then false
  else
    match search sam with
    | .ok entries => entries.length = 0
    | .error _ => false

/-- Embeds `encode_password(password)` (identical in both helper modules):
wrap in double quotes, then UTF-16LE encode. -/
def utf16leChar (c : Char) : List Nat :=
  if c.toNat < 65536 then [c.toNat % 256, c.toNat / 256]
  else
    [(55296 + (c.toNat - 65536) / 1024) % 256, (55296 + (c.toNat - 65536) / 1024) / 256,
     (56320 + (c.toNat - 65536) % 1024) % 256, (56320 + (c.toNat - 65536) % 1024) / 256]

def utf16le (s : Str) : List Nat := s.flatMap utf16leChar

def encode_password (p : Str) : List Nat := utf16le ('"' :: p ++ ['"'])

/-- Fallback candidate of one loop iteration (lines 75-89): digits appended
for the first two attempts, then the two-initial variant (itself re-checked
and possibly replaced by a numbered two-initial variant), with the
digit-append fallback when the first name has fewer than 2 characters. -/
def attemptCandidate (first last candidate : Str) (search : SearchFn) (attempt : Nat) : Str :=
  if attempt ≤ 2 then
    pySliceTo candidate (19 - ((natStr attempt).length : Int)) ++ natStr attempt
  else if 2 ≤ first.length then
    let nc := (first.take 2 ++ '.' :: last).take 20
    if !is_sam_account_unique search nc then
      first.take 2 ++ '.' :: pySliceTo last (17 - ((natStr (attempt - 2)).length : Int))
        ++ natStr (attempt - 2)
    else nc
  else
    pySliceTo candidate (19 - ((natStr attempt).length : Int)) ++ natStr attempt

/-- The `for attempt in range(1, max_attempts + 1)` loop (lines 75-92). -/
def tryAttempts (first last candidate : Str) (search : SearchFn) : List Nat → Option Str
  | [] => none
  | a :: rest =>
    let nc := attemptCandidate first last candidate search a
    if is_sam_account_unique search nc then some nc
    else tryAttempts first last candidate search rest

/-- Embeds `auto_generate_sam_account(first, last, ldap_conn, max_attempts)`
of `src/UserEditor/helpers.py`: empty inputs give `None` (the always-present
connection argument is abstracted into `search`); the initial candidate is
`firstinitial.lastname`, truncated to 20 characters and sanitized; if taken,
up to `maxAttempts` fallback candidates are tried.  A whitespace-only first
name raises `IndexError` in the source (`first[0]` on `""`); that unreachable
path is modelled as `none`. -/
def auto_generate_sam_account (first last : Str) (search : SearchFn)
    (maxAttempts : Nat := 5) : Option Str :=
  if first = [] ∨ last = [] then none
  else
    let first := pyLower (pyStrip first)
    let last := pyLower (pyStrip last)
    match first with
    | [] => none
    | f0 :: _ =>
      let candidate := sanitize ((f0 :: '.' :: last).take 20)
      if is_sam_account_unique search candidate then some candidate
      else tryAttempts first last candidate search (List.range' 1 maxAttempts)

end UEHelpers

/-! ## `src/UserEditor/user_window.py` -/

namespace UserWindow

/-- Scalar values stored in directory attributes and modification lists. -/
inductive Val where
  | str : Str → Val
  | int : Int → Val
  | bytes : List Nat → Val
deriving DecidableEq

/-- A snapshot or attributes-tab value: a scalar, or a multi-valued list
(Python `isinstance(value, list)`). -/
inductive AttrVal where
  | one : Val → AttrVal
  | many : List Val → AttrVal
deriving DecidableEq

/-- LDAP modify operation kinds used by the window. -/
inductive ModOp where
  | replace
  | add
  | delete
deriving DecidableEq

/-- One `modifications[attr] = [(op, values)]` entry. -/
structure ModReq where
  attr : Str
  op : ModOp
  values : List Val
deriving DecidableEq

/-- Association-list lookup on attribute names (Python dict access). -/
def alookup {β : Type} : List (Str × β) → Str → Option β
  | [], _ => none
  | (k, v) :: t, q => if k = q then some v else alookup t q

/-- The in-memory snapshot `self.user_data` of the edited object. -/
abbrev Snapshot := List (Str × AttrVal)

/-- Python `self.user_data.get(attr, "")`. -/
def snapGetD (snapshot : Snapshot) (k : Str) : AttrVal :=
  (alookup snapshot k).getD (.one (.str []))

/-- Python `self.user_data.get('userAccountControl', 0)`; a stored
non-integer value would raise `TypeError` in the source and is modelled
as the default. -/
def snapUac (snapshot : Snapshot) : Int :=
  match alookup snapshot ("userAccountControl".data) with
  | some (.one (.int n)) => n
  | _ => 0

/-- One country entry of the `country_combo`: display text plus the
`(code, num)` item data. -/
structure CountrySel where
  name : Str
  code : Str
  num : Str
deriving DecidableEq

/-- Live widget state read by `save_changes`: the text of each bound line
edit, the checkbox states, the password-reset inputs, the country combo
selection (`none` iff `currentIndex() < 0`), and the attributes tab's
`get_attributes()` dictionary as an association list. -/
structure FormState where
  firstName : Str
  lastName : Str
  displayNameF : Str
  email : Str
  phone : Str
  mobileF : Str
  upnPre : Str
  upnSuf : Str
  disabledChk : Bool
  pwdNeverExpiresChk : Bool
  cannotChangePwdChk : Bool
  pwdExpiredChk : Bool
  newPassword : Str
  confirmPassword : Str
  jobTitle : Str
  departmentF : Str
  companyF : Str
  descriptionF : Str
  street : Str
  city : Str
  stateF : Str
  postal : Str
  countrySel : Option CountrySel
  customAttributes : List (Str × AttrVal)

/-- Outcome of one `save_changes` run: the password-mismatch early return,
the "No changes to save" branch, or the modification dict passed to
`ldap_conn.modify`. -/
inductive SaveResult where
  | pwdMismatch
  | noChanges
  | applied : List ModReq → SaveResult
deriving DecidableEq

/-- One `if attr in self.modified_attributes: modifications[attr] = [(MODIFY_REPLACE, vals)]`
block. -/
def dirtyMod (dirty : List Str) (name : Str) (vals : List Val) : List ModReq :=
  if name ∈ dirty then [⟨name, .replace, vals⟩] else []

/-- A run of such blocks over (attribute, form text) pairs. -/
def textMods (dirty : List Str) : List (Str × Str) → List ModReq
  | [] => []
  | (n, v) :: t => dirtyMod dirty n [.str v] ++ textMods dirty t

/-- The direct text attributes of lines 1152-1175 with their form values
(`userPrincipalName` is rebuilt from prefix and suffix). -/
def textTable1 (form : FormState) : List (Str × Str) :=
  [("givenName".data, form.firstName),
   ("sn".data, form.lastName),
   ("displayName".data, form.displayNameF),
   ("mail".data, form.email),
   ("telephoneNumber".data, form.phone),
   ("mobile".data, form.mobileF),
   ("userPrincipalName".data, form.upnPre ++ form.upnSuf)]

/-- The direct text attributes of lines 1216-1239. -/
def textTable2 (form : FormState) : List (Str × Str) :=
  [("title".data, form.jobTitle),
   ("department".data, form.departmentF),
   ("company".data, form.companyF),
   ("description".data, form.descriptionF),
   ("streetAddress".data, form.street),
   ("l".data, form.city),
   ("st".data, form.stateF),
   ("postalCode".data, form.postal)]

/-- The `userAccountControl` recomputation of lines 1178-1198: start from
the snapshot's bitmask and set or clear the three flag bits from the
checkboxes (`uac |= m` / `uac &= ~m`). -/
def computedUac (snapshot : Snapshot) (form : FormState) : Int :=
  let uac := snapUac snapshot
  let uac := if form.disabledChk then pyOr uac 2 else pyAnd uac (pyNot 2)
  let uac := if form.pwdNeverExpiresChk then pyOr uac 65536 else pyAnd uac (pyNot 65536)
  if form.cannotChangePwdChk then pyOr uac 64 else pyAnd uac (pyNot 64)

/-- Lines 1208-1209: one `unicodePwd` replace when the reset inputs are
non-empty and agree (the mismatch case aborts in `saveChanges` itself). -/
def pwdPart (form : FormState) : List ModReq :=
  if form.newPassword ≠ [] ∧ form.newPassword = form.confirmPassword then
    [⟨"unicodePwd".data, .replace, [.bytes (UEHelpers.encode_password form.newPassword)]⟩]
  else []

/-- Lines 1241-1249: the dirty `country` flag expands into the `c`, `co`,
`countryCode` attributes, guarded by `country_idx >= 0`. -/
def countryMods (dirty : List Str) (form : FormState) : List ModReq :=
  if ("country".data) ∈ dirty then
    match form.countrySel with
    | some cs =>
      [⟨"c".data, .replace, [.str cs.code]⟩,
       ⟨"co".data, .replace, [.str cs.name]⟩,
       ⟨"countryCode".data, .replace, [.str cs.num]⟩]
    | none => []
  else []

/-- The skip list of lines 1255-1260. -/
def skipList : List Str :=
  ["givenName".data, "sn".data, "displayName".data, "mail".data,
   "telephoneNumber".data, "mobile".data, "userPrincipalName".data,
   "userAccountControl".data, "pwdLastSet".data, "unicodePwd".data,
   "title".data, "department".data, "company".data, "description".data,
   "streetAddress".data, "l".data, "st".data, "postalCode".data,
   "c".data, "co".data, "countryCode".data]

/-- `value if isinstance(value, list) else [value]`. -/
def attrValues : AttrVal → List Val
  | .one v => [v]
  | .many vs => vs

/-- The custom-attribute loop of lines 1252-1266: skip names already in the
dict or in the skip list, emit a replace when the tab value differs from
the snapshot value (`already` carries the names present in `modifications`
so far). -/
def customPart (snapshot : Snapshot) : List (Str × AttrVal) → List Str → List ModReq
  | [], _ => []
  | (n, v) :: t, already =>
    if n ∈ already ∨ n ∈ skipList then customPart snapshot t already
    else if v ≠ snapGetD snapshot n then
      ⟨n, .replace, attrValues v⟩ :: customPart snapshot t (already ++ [n])
    else customPart snapshot t already

/-- The modification entries of the fixed `if attr in modified_attributes`
blocks, in source order (personal info, UPN, `userAccountControl`,
`pwdLastSet`, the password reset, job info, address info, country). -/
def fixedMods (snapshot : Snapshot) (dirty : List Str) (form : FormState) : List ModReq :=
  textMods dirty (textTable1 form)
    ++ dirtyMod dirty ("userAccountControl".data) [.int (computedUac snapshot form)]
    ++ dirtyMod dirty ("pwdLastSet".data) [.int (if form.pwdExpiredChk then 0 else -1)]
    ++ pwdPart form
    ++ textMods dirty (textTable2 form)
    ++ countryMods dirty form

/-- The full modification dict: the fixed blocks followed by the
custom-attribute loop, which skips any name already present. -/
def allMods (snapshot : Snapshot) (dirty : List Str) (form : FormState) : List ModReq :=
  fixedMods snapshot dirty form
    ++ customPart snapshot form.customAttributes ((fixedMods snapshot dirty form).map ModReq.attr)

/-- Embeds `save_changes` (lines 1143-1284): build the modification dict in
source order, abort with the password-mismatch warning when the reset
inputs are non-empty and disagree, and otherwise report either the "no
changes" branch or the dict handed to `ldap_conn.modify`. -/
def saveChanges (snapshot : Snapshot) (dirty : List Str) (form : FormState) : SaveResult :=
  if form.newPassword ≠ [] ∧ form.newPassword ≠ form.confirmPassword then .pwdMismatch
  else if allMods snapshot dirty form = [] then .noChanges
  else .applied (allMods snapshot dirty form)

/-- An edit form with every text field empty, every checkbox unchecked, no
country selection and an empty attributes tab; concrete scenarios start
from it. -/
def emptyForm : FormState where
  firstName := []
  lastName := []
  displayNameF := []
  email := []
  phone := []
  mobileF := []
  upnPre := []
  upnSuf := []
  disabledChk := false
  pwdNeverExpiresChk := false
  cannotChangePwdChk := false
  pwdExpiredChk := false
  newPassword := []
  confirmPassword := []
  jobTitle := []
  departmentF := []
  companyF := []
  descriptionF := []
  street := []
  city := []
  stateF := []
  postal := []
  countrySel := none
  customAttributes := []

/-- The direct (one attribute, one control) names handled by
`save_changes`, in source order. -/
def directAttrs : List Str :=
  ["givenName".data, "sn".data, "displayName".data, "mail".data,
   "telephoneNumber".data, "mobile".data, "userPrincipalName".data,
   "userAccountControl".data, "pwdLastSet".data,
   "title".data, "department".data, "company".data, "description".data,
   "streetAddress".data, "l".data, "st".data, "postalCode".data]

/-- The names bound to plain text fields (the direct attributes except the
two checkbox-driven ones). -/
def textKeys : List Str :=
  ["givenName".data, "sn".data, "displayName".data, "mail".data,
   "telephoneNumber".data, "mobile".data, "userPrincipalName".data,
   "title".data, "department".data, "company".data, "description".data,
   "streetAddress".data, "l".data, "st".data, "postalCode".data]

end UserWindow

namespace UserWindow

/-- Widget state read by `create_user` (lines 947-1104): the create-mode
form fields, the three account checkboxes of `setup_create_mode_ui`, the
country selection, and the attributes tab. -/
structure CreateForm where
  firstName : Str
  lastName : Str
  displayNameF : Str
  samAccount : Str
  upnPre : Str
  upnSuf : Str
  password : Str
  confirmPassword : Str
  contractorChk : Bool
  changePasswordChk : Bool
  neverExpiresChk : Bool
  jobTitle : Str
  departmentF : Str
  companyF : Str
  street : Str
  city : Str
  stateF : Str
  postal : Str
  countrySel : Option CountrySel
  customAttributes : List (Str × AttrVal)

/-- Outcome of one `create_user` run up to the `write_conn.add` call: the
validation early returns, the abort paths when no SAM account name could be
generated (lines 978-988), or the assembled attribute dict together with
the optional follow-up `pwdLastSet = 0` modify of lines 1099-1104. -/
inductive CreateResult where
  | missingFields
  | pwdMismatch
  | samUnavailable
  | created : List (Str × AttrVal) → Option ModReq → CreateResult
deriving DecidableEq

/-- Lines 990-1000: sAMAccountName resolution when the field is blank:
run the UserEditor generator, then (contractor checkbox) truncate the
accepted candidate to 17 characters and append the literal `-c`. -/
def contractorSuffix (candidate : Str) : Str :=
  (if 17 < candidate.length then candidate.take 17 else candidate) ++ "-c".data

def createSamAccount (first last : Str) (contractor : Bool) (search : SearchFn) : Option Str :=
  match UEHelpers.auto_generate_sam_account first last search with
  | none => none
  | some c => some (if contractor then contractorSuffix c else c)

/-- The base attribute dict of lines 1023-1034 (`userAccountControl` is the
fixed literal 66048, password-never-expires plus normal account). -/
def baseAttrs (first last display sam upn password : Str) : List (Str × AttrVal) :=
  [("objectClass".data, .many [.str "top".data, .str "person".data,
      .str "organizationalPerson".data, .str "user".data]),
   ("cn".data, .one (.str display)),
   ("sn".data, .one (.str last)),
   ("givenName".data, .one (.str first)),
   ("displayName".data, .one (.str display)),
   ("sAMAccountName".data, .one (.str sam)),
   ("userPrincipalName".data, .one (.str upn)),
   ("mail".data, .one (.str upn)),
   ("userAccountControl".data, .one (.int 66048)),
   ("unicodePwd".data, .one (.bytes (UEHelpers.encode_password password)))]

/-- One `if field.strip(): attributes[name] = field` block of lines 1036-1065. -/
def optionalAttr (name : Str) (value : Str) : List (Str × AttrVal) :=
  if pyStrip value = [] then [] else [(name, .one (.str (pyStrip value)))]

/-- Lines 1067-1075: country attributes from the combo selection. -/
def countryAttrs (sel : Option CountrySel) : List (Str × AttrVal) :=
  match sel with
  | some cs => [("c".data, .one (.str cs.code)), ("co".data, .one (.str cs.name)),
                ("countryCode".data, .one (.str cs.num))]
  | none => []

/-- Lines 1077-1084: custom attributes are appended unless the name is
already a key of the dict, wrapped into a list. -/
def createCustom : List (Str × AttrVal) → List Str → List (Str × AttrVal)
  | [], _ => []
  | (n, v) :: t, keys =>
    if n ∈ keys then createCustom t keys
    else (n, .many (attrValues v)) :: createCustom t (keys ++ [n])

/-- Embeds `create_user` up to the directory `add`: field reads and
stripping (lines 952-960), required-field and password validation
(lines 962-970), display-name defaulting, sAMAccountName auto-generation
with contractor suffix, and the attribute dict assembly.  The distinguished
name, the write connection, and the group-membership loop after the `add`
are outside the claims and not modelled. -/
def createUser (form : CreateForm) (search : SearchFn) : CreateResult :=
  let first := pyStrip form.firstName
  let last := pyStrip form.lastName
  let sam0 := pyStrip form.samAccount
  let upn := form.upnPre ++ pyStrip form.upnSuf
  if first = [] ∨ last = [] ∨ form.password = [] ∨ form.confirmPassword = [] then .missingFields
  else if form.password ≠ form.confirmPassword then .pwdMismatch
  else
    let display := pyStrip form.displayNameF
    let display := if display = [] then first ++ ' ' :: last else display
    match (if sam0 = [] then createSamAccount first last form.contractorChk search
           else some sam0) with
    | none => .samUnavailable
    | some sam =>
      let attrs := baseAttrs first last display sam upn form.password
        ++ optionalAttr ("title".data) form.jobTitle
        ++ optionalAttr ("department".data) form.departmentF
        ++ optionalAttr ("company".data) form.companyF
        ++ optionalAttr ("streetAddress".data) form.street
        ++ optionalAttr ("l".data) form.city
        ++ optionalAttr ("st".data) form.stateF
        ++ optionalAttr ("postalCode".data) form.postal
        ++ countryAttrs form.countrySel
      let attrs := attrs ++ createCustom form.customAttributes (attrs.map Prod.fst)
      .created attrs
        (if form.changePasswordChk then some ⟨"pwdLastSet".data, .replace, [.int 0]⟩ else none)

end UserWindow

/-! ## String-model lemmas -/

theorem toNat_ofNat_of_lt (n : Nat) (h : n < 55296) : (Char.ofNat n).toNat = n := by
  have hv : n.isValidChar := Or.inl h
  simp [Char.ofNat, hv, Char.ofNatAux, Char.toNat, UInt32.toNat]

theorem lowerChar_toNat_not_upper (c : Char) :
    ¬(65 ≤ (lowerChar c).toNat ∧ (lowerChar c).toNat ≤ 90) := by
  unfold lowerChar
  split
  · next h =>
    rw [toNat_ofNat_of_lt _ (by omega)]
    omega
  · next h => exact h

theorem lowerChar_idem (c : Char) : lowerChar (lowerChar c) = lowerChar c := by
  have h := lowerChar_toNat_not_upper c
  unfold lowerChar
  rw [if_neg]
  exact fun hc => h ⟨hc.1, hc.2⟩

theorem mem_pyStrip {c : Char} {s : Str} (h : c ∈ pyStrip s) : c ∈ s := by
  unfold pyStrip at h
  rw [List.mem_reverse] at h
  have h1 := List.dropWhile_sublist (l := (s.dropWhile isPySpace).reverse) (p := isPySpace)
  have h2 := h1.mem h
  rw [List.mem_reverse] at h2
  exact (List.dropWhile_sublist (l := s) (p := isPySpace)).mem h2

theorem mem_pyLower_fixed {c : Char} {s : Str} (h : c ∈ pyLower s) :
    lowerChar c = c := by
  unfold pyLower at h
  obtain ⟨d, _, rfl⟩ := List.mem_map.mp h
  exact lowerChar_idem d

/-! ## Generator lemmas -/

namespace Helpers

theorem head_samCandidates (first last : Str) (h : (first ++ '.' :: last).length ≤ 20) :
    ∃ t, samCandidates first last = (first ++ '.' :: last) :: t := by
  simp only [samCandidates]
  rw [if_pos h]
  split_ifs <;> exact ⟨_, rfl⟩

theorem mem_samCandidates {first last s : Str}
    (h : s ∈ samCandidates first last) :
    s.length ≤ 20 ∧ ∃ k, s = first.take k ++ '.' :: last := by
  simp only [samCandidates] at h
  split_ifs at h <;>
    simp only [List.mem_append, List.mem_singleton, List.not_mem_nil, or_false,
      false_or] at h <;>
    repeat' (rcases h with h | h)
  all_goals
    first
    | exact ⟨by omega, first.length, congrArg (· ++ '.' :: last) (List.take_length first).symm⟩
    | exact ⟨by omega, 1, rfl⟩
    | exact ⟨by omega, 2, rfl⟩
    | simp_all

end Helpers

namespace UEHelpers

theorem unique_ok {search : SearchFn} {s : Str}
    (h : is_sam_account_unique search s = true) : search s = .ok [] := by
  unfold is_sam_account_unique at h
  split at h
  · exact absurd h (by simp)
  · cases hs : search s with
    | ok entries =>
      rw [hs] at h
      have he : entries = [] := List.length_eq_zero.mp (of_decide_eq_true h)
      rw [he]
    | error e => rw [hs] at h; exact absurd h (by simp)

theorem tryAttempts_unique {first last candidate s : Str} {search : SearchFn} :
    ∀ l, tryAttempts first last candidate search l = some s →
      is_sam_account_unique search s = true := by
  intro l
  induction l with
  | nil => intro h; exact absurd h (by simp [tryAttempts])
  | cons a rest ih =>
    intro h
    simp only [tryAttempts] at h
    split at h
    · next hu => cases h; exact hu
    · exact ih h

theorem generate_unique {first last s : Str} {search : SearchFn} {m : Nat}
    (h : auto_generate_sam_account first last search m = some s) :
    is_sam_account_unique search s = true := by
  simp only [auto_generate_sam_account] at h
  split at h
  · exact absurd h (by simp)
  · split at h
    · exact absurd h (by simp)
    · split at h
      · next hu => cases h; exact hu
      · exact tryAttempts_unique _ h

end UEHelpers

/-! ## Claim C1 -/

/-- C1: for non-empty, trimmed, lower-cased `first`/`last` and an existence
check that reports false for every input, `auto_generate_sam_account` of
`src/helpers.py` returns `first ++ "." ++ last` whenever that candidate is
at most 20 characters long (candidate 1 of the ordered algorithm wins). -/
theorem Helpers.generate_first_dot_last_wins (first last : Str) (search : SearchFn)
    (hfne : first ≠ []) (hlne : last ≠ [])
    (hflow : pyLower first = first) (hfstrip : pyStrip first = first)
    (hllow : pyLower last = last) (hlstrip : pyStrip last = last)
    (hex : ∀ s, Helpers.check_sam_account_exists s search = false)
    (hlen : (first ++ '.' :: last).length ≤ 20) :
    Helpers.auto_generate_sam_account first last search = some (first ++ '.' :: last) := by
  unfold Helpers.auto_generate_sam_account
  rw [hflow, hfstrip, hllow, hlstrip]
  obtain ⟨t, ht⟩ := Helpers.head_samCandidates first last hlen
  rw [ht]
  simp [List.find?, hex]

/-- Witness for C1 at first = "jane", last = "doe" and the all-false
existence check. -/
theorem Helpers.generate_first_dot_last_wins_witness :
    ("jane".data ++ '.' :: "doe".data).length ≤ 20 ∧
    Helpers.auto_generate_sam_account "jane".data "doe".data (fun _ => .ok []) =
      some ("jane.doe".data) := by
  refine ⟨by decide, ?_⟩
  have h := Helpers.generate_first_dot_last_wins "jane".data "doe".data (fun _ => .ok [])
    (by decide) (by decide) (by decide) (by decide) (by decide) (by decide)
    (fun s => rfl) (by decide)
  exact h

/-! ## Claim C6 -/

/-- C6 counterexample: with a search collaborator that raises on every
query, `check_sam_account_exists` of `src/helpers.py` reports "does not
exist" (its `except` branch returns `False`), so the top-level generator
still proposes `jane.doe` although its uniqueness was never verified. -/
theorem Helpers.generator_proposes_unverified_name :
    Helpers.check_sam_account_exists ("jane.doe".data) (fun _ => .error ()) = false ∧
    Helpers.auto_generate_sam_account "jane".data "doe".data (fun _ => .error ())
      = some ("jane.doe".data) := by
  exact ⟨rfl, by decide⟩

/-- C6 (amended): the UserEditor generator is conservative: every name it
returns passed `is_sam_account_unique`, so the search on that name
succeeded and returned no entries; a raising search can never be behind a
proposed name. -/
theorem UEHelpers.generator_never_returns_unverified (first last s : Str)
    (search : SearchFn) (m : Nat)
    (h : UEHelpers.auto_generate_sam_account first last search m = some s) :
    search s = .ok [] :=
  UEHelpers.unique_ok (UEHelpers.generate_unique h)

/-- Witness for C6 with a search that succeeds only on `j.doe` and raises
everywhere else. -/
theorem UEHelpers.generator_never_returns_unverified_witness :
    UEHelpers.auto_generate_sam_account "Jane".data "Doe".data
        (fun q => if q = "j.doe".data then Except.ok ([] : List Str) else .error ()) 5
      = some ("j.doe".data) ∧
    (fun q => if q = "j.doe".data then Except.ok ([] : List Str) else .error ())
        ("j.doe".data) = .ok [] := by
  refine ⟨by decide, ?_⟩
  exact UEHelpers.generator_never_returns_unverified "Jane".data "Doe".data ("j.doe".data)
    (fun q => if q = "j.doe".data then Except.ok ([] : List Str) else .error ()) 5 (by decide)

/-! ## Claim C7 -/

/-- C7 counterexample: the create flow checks existence against the bare
candidate only.  With a directory in which `j.doe-c` exists but everything
else is free, the contractor branch still returns `j.doe-c`; and the
end-to-end result for Jane/Doe differs from the claimed `jane.doe-c`. -/
theorem UserWindow.contractor_check_runs_on_bare_form :
    UserWindow.createSamAccount "Jane".data "Doe".data true
        (fun q => if q = "j.doe-c".data then Except.ok ["taken".data] else .ok [])
      = some ("j.doe-c".data) ∧
    UEHelpers.is_sam_account_unique
        (fun q => if q = "j.doe-c".data then Except.ok ["taken".data] else .ok [])
        ("j.doe-c".data) = false ∧
    ("j.doe-c".data : Str) ≠ "jane.doe-c".data := by
  refine ⟨by decide, by decide, by decide⟩

/-- C7 (amended): in the contractor branch, the suffix `-c` is appended
after the UserEditor generator accepts a bare candidate; only the bare
candidate's uniqueness was checked, the accepted base is truncated to 17
characters, and the final name still fits the 20-character ceiling. -/
theorem UserWindow.contractor_suffix_after_acceptance (first last s : Str)
    (search : SearchFn)
    (h : UserWindow.createSamAccount first last true search = some s) :
    ∃ c, UEHelpers.auto_generate_sam_account first last search = some c ∧
      search c = .ok [] ∧ s = UserWindow.contractorSuffix c ∧ s.length ≤ 20 := by
  unfold UserWindow.createSamAccount at h
  cases hg : UEHelpers.auto_generate_sam_account first last search with
  | none => rw [hg] at h; exact absurd h (by simp)
  | some c =>
    rw [hg] at h
    simp only [if_true, Option.some.injEq] at h
    refine ⟨c, rfl, UEHelpers.unique_ok (UEHelpers.generate_unique hg), h.symm, ?_⟩
    subst h
    unfold UserWindow.contractorSuffix
    split <;> simp [List.length_take] <;> omega

/-- Witness for C7 at Jane/Doe with the all-free existence check. -/
theorem UserWindow.contractor_suffix_after_acceptance_witness :
    UserWindow.createSamAccount "Jane".data "Doe".data true (fun _ => .ok [])
      = some ("j.doe-c".data) ∧
    ∃ c, UEHelpers.auto_generate_sam_account "Jane".data "Doe".data (fun _ => .ok [])
        = some c ∧
      (fun _ => (Except.ok ([] : List Str) : Except Unit (List Str))) c = .ok [] ∧
      ("j.doe-c".data : Str) = UserWindow.contractorSuffix c ∧
      ("j.doe-c".data : Str).length ≤ 20 := by
  refine ⟨by decide, ?_⟩
  exact UserWindow.contractor_suffix_after_acceptance "Jane".data "Doe".data
    ("j.doe-c".data) (fun _ => .ok []) (by decide)

/-! ## Claim C8 -/

/-- C8 counterexample: the top-level generator never sanitizes: for
first = "ann marie", last = "smith" and an all-free existence check it
returns `ann marie.smith`, which contains a space, a character outside
the allowed `[a-z0-9.\-_]` set. -/
theorem Helpers.generator_emits_unsanitized_name :
    Helpers.auto_generate_sam_account ("ann marie".data) ("smith".data) (fun _ => .ok [])
      = some ("ann marie.smith".data) ∧
    ¬(∀ c ∈ ("ann marie.smith".data : Str), c ∈ UEHelpers.valid_chars) := by
  exact ⟨by decide, by decide⟩

/-- C8 (amended): every name the top-level generator returns is at most 20
characters long and lower-case (every character is a fixed point of ASCII
lowering); the charset/sanitization part of the claim fails as shown by the
counterexample. -/
theorem Helpers.generated_name_short_and_lowercase (first last s : Str)
    (search : SearchFn)
    (h : Helpers.auto_generate_sam_account first last search = some s) :
    s.length ≤ 20 ∧ ∀ c ∈ s, lowerChar c = c := by
  unfold Helpers.auto_generate_sam_account at h
  have hmem := List.mem_of_find?_eq_some h
  obtain ⟨hlen, k, rfl⟩ := Helpers.mem_samCandidates hmem
  refine ⟨hlen, ?_⟩
  intro c hc
  rw [List.mem_append] at hc
  rcases hc with hc | hc
  · exact mem_pyLower_fixed (mem_pyStrip (List.take_subset _ _ hc))
  · rcases List.mem_cons.mp hc with rfl | hc
    · decide
    · exact mem_pyLower_fixed (mem_pyStrip hc)

/-- Witness for C8 at first = "mary", last = "sue". -/
theorem Helpers.generated_name_short_and_lowercase_witness :
    Helpers.auto_generate_sam_account "mary".data "sue".data (fun _ => .ok [])
      = some ("mary.sue".data) ∧
    ("mary.sue".data : Str).length ≤ 20 ∧ ∀ c ∈ ("mary.sue".data : Str), lowerChar c = c := by
  refine ⟨by decide, ?_⟩
  exact Helpers.generated_name_short_and_lowercase "mary".data "sue".data
    ("mary.sue".data) (fun _ => .ok []) (by decide)

/-! ## Reconciler lemmas -/

namespace UserWindow

theorem mem_attr_dirtyMod {dirty : List Str} {n a : Str} {vs : List Val} :
    a ∈ (dirtyMod dirty n vs).map ModReq.attr ↔ (a = n ∧ a ∈ dirty) := by
  unfold dirtyMod
  split
  · next h =>
    simp only [List.map_cons, List.map_nil, List.mem_singleton]
    constructor
    · rintro rfl; exact ⟨rfl, h⟩
    · rintro ⟨rfl, _⟩; rfl
  · next h =>
    simp only [List.map_nil, List.not_mem_nil, false_iff, not_and]
    rintro rfl
    exact h

theorem mem_attr_textMods {dirty : List Str} {a : Str} :
    ∀ {table : List (Str × Str)},
      (a ∈ (textMods dirty table).map ModReq.attr ↔
        a ∈ table.map Prod.fst ∧ a ∈ dirty) := by
  intro table
  induction table with
  | nil => simp [textMods]
  | cons p t ih =>
    obtain ⟨n, v⟩ := p
    simp only [textMods, List.map_append, List.mem_append, mem_attr_dirtyMod, ih,
      List.map_cons, List.mem_cons, or_and_right]

theorem mem_attr_pwdPart {form : FormState} {a : Str} :
    a ∈ (pwdPart form).map ModReq.attr ↔
      (a = "unicodePwd".data ∧ form.newPassword ≠ [] ∧
        form.newPassword = form.confirmPassword) := by
  unfold pwdPart
  split
  · next h =>
    simp only [List.map_cons, List.map_nil, List.mem_singleton]
    constructor
    · rintro rfl; exact ⟨rfl, h.1, h.2⟩
    · rintro ⟨rfl, _, _⟩; rfl
  · next h =>
    simp only [List.map_nil, List.not_mem_nil, false_iff]
    exact fun hx => h ⟨hx.2.1, hx.2.2⟩

theorem mem_attr_countryMods {dirty : List Str} {form : FormState} {a : Str} :
    a ∈ (countryMods dirty form).map ModReq.attr ↔
      (("country".data : Str) ∈ dirty ∧ form.countrySel.isSome ∧
        (a = "c".data ∨ a = "co".data ∨ a = "countryCode".data)) := by
  unfold countryMods
  split
  · next hd =>
    cases hsel : form.countrySel with
    | some cs => simp [hd, hsel]
    | none => simp [hsel]
  · next hd => simp [hd]

theorem customPart_attr_not_skip {snapshot : Snapshot} :
    ∀ {items : List (Str × AttrVal)} {already : List Str} {m : ModReq},
      m ∈ customPart snapshot items already → m.attr ∉ skipList := by
  intro items
  induction items with
  | nil => intro already m h; simp [customPart] at h
  | cons p t ih =>
    intro already m h
    obtain ⟨n, v⟩ := p
    simp only [customPart] at h
    split at h
    · exact ih h
    · next hskip =>
      split at h
      · rcases List.mem_cons.mp h with rfl | h'
        · exact fun hs => hskip (Or.inr hs)
        · exact ih h'
      · exact ih h

theorem mem_attr_customPart {snapshot : Snapshot} {a : Str} :
    ∀ {items : List (Str × AttrVal)} {already : List Str},
      (items.map Prod.fst).Nodup →
      (a ∈ (customPart snapshot items already).map ModReq.attr ↔
        ∃ v, (a, v) ∈ items ∧ a ∉ already ∧ a ∉ skipList ∧ v ≠ snapGetD snapshot a) := by
  intro items
  induction items with
  | nil => intro already _; simp [customPart]
  | cons p t ih =>
    intro already hnd
    obtain ⟨n, v⟩ := p
    simp only [List.map_cons, List.nodup_cons] at hnd
    obtain ⟨hk, hnd'⟩ := hnd
    simp only [customPart]
    split
    · next hskip =>
      rw [ih hnd']
      constructor
      · rintro ⟨w, hw, h1, h2, h3⟩
        exact ⟨w, List.mem_cons_of_mem _ hw, h1, h2, h3⟩
      · rintro ⟨w, hw, h1, h2, h3⟩
        rcases List.mem_cons.mp hw with heq | hw'
        · cases heq
          rcases hskip with hc | hc
          · exact absurd hc h1
          · exact absurd hc h2
        · exact ⟨w, hw', h1, h2, h3⟩
    · next hskip =>
      split
      · next hne =>
        simp only [List.map_cons, List.mem_cons]
        rw [ih hnd']
        constructor
        · rintro (rfl | ⟨w, hw, h1, h2, h3⟩)
          · refine ⟨v, Or.inl rfl, ?_, ?_, hne⟩
            · exact fun hc => hskip (Or.inl hc)
            · exact fun hc => hskip (Or.inr hc)
          · refine ⟨w, Or.inr hw, ?_, h2, h3⟩
            exact fun hc => h1 (List.mem_append_left _ hc)
        · rintro ⟨w, heq | hw', h1, h2, h3⟩
          · cases heq; exact Or.inl rfl
          · have han : a ≠ n := fun h => hk (h ▸ List.mem_map_of_mem Prod.fst hw')
            refine Or.inr ⟨w, hw', ?_, h2, h3⟩
            intro hc
            rcases List.mem_append.mp hc with hc | hc
            · exact h1 hc
            · exact han (List.mem_singleton.mp hc)
      · next hne =>
        rw [ih hnd']
        constructor
        · rintro ⟨w, hw, h1, h2, h3⟩
          exact ⟨w, List.mem_cons_of_mem _ hw, h1, h2, h3⟩
        · rintro ⟨w, hw, h1, h2, h3⟩
          rcases List.mem_cons.mp hw with heq | hw'
          · cases heq; exact absurd (not_not.mp hne) h3
          · exact ⟨w, hw', h1, h2, h3⟩

end UserWindow

namespace UserWindow

theorem textMods_attr_mem_keys {dirty : List Str} {m : ModReq} :
    ∀ {table : List (Str × Str)}, m ∈ textMods dirty table →
      m.attr ∈ table.map Prod.fst := by
  intro table
  induction table with
  | nil => intro h; simp [textMods] at h
  | cons p t ih =>
    intro h
    obtain ⟨n, v⟩ := p
    simp only [textMods] at h
    rcases List.mem_append.mp h with h | h
    · unfold dirtyMod at h
      split at h
      · rcases List.mem_singleton.mp h with rfl
        exact List.mem_cons_self _ _
      · simp at h
    · exact List.mem_cons_of_mem _ (ih h)

theorem dirtyMod_attr {dirty : List Str} {n : Str} {vs : List Val} {m : ModReq}
    (h : m ∈ dirtyMod dirty n vs) : m = ⟨n, .replace, vs⟩ ∧ n ∈ dirty := by
  unfold dirtyMod at h
  split at h
  · next hd => exact ⟨List.mem_singleton.mp h, hd⟩
  · simp at h

theorem pwdPart_attr {form : FormState} {m : ModReq} (h : m ∈ pwdPart form) :
    m.attr = "unicodePwd".data := by
  unfold pwdPart at h
  split at h
  · rcases List.mem_singleton.mp h with rfl; rfl
  · simp at h

theorem countryMods_attr {dirty : List Str} {form : FormState} {m : ModReq}
    (h : m ∈ countryMods dirty form) :
    m.attr = "c".data ∨ m.attr = "co".data ∨ m.attr = "countryCode".data := by
  unfold countryMods at h
  split at h
  · split at h
    · simp only [List.mem_cons, List.not_mem_nil, or_false] at h
      rcases h with rfl | rfl | rfl
      · exact Or.inl rfl
      · exact Or.inr (Or.inl rfl)
      · exact Or.inr (Or.inr rfl)
    · simp at h
  · simp at h

/-- Every attribute name the fixed blocks write belongs to the skip list. -/
theorem fixedMods_attr_mem_skip {snapshot : Snapshot} {dirty : List Str}
    {form : FormState} {m : ModReq} (h : m ∈ fixedMods snapshot dirty form) :
    m.attr ∈ skipList := by
  have hsub1 : ∀ b ∈ (textTable1 form).map Prod.fst, b ∈ skipList := by
    intro b hb
    have he : (textTable1 form).map Prod.fst =
        ["givenName".data, "sn".data, "displayName".data, "mail".data,
         "telephoneNumber".data, "mobile".data, "userPrincipalName".data] := rfl
    rw [he] at hb
    have : ∀ x ∈ ["givenName".data, "sn".data, "displayName".data, "mail".data,
         "telephoneNumber".data, "mobile".data, "userPrincipalName".data],
        x ∈ skipList := by decide
    exact this b hb
  have hsub2 : ∀ b ∈ (textTable2 form).map Prod.fst, b ∈ skipList := by
    intro b hb
    have he : (textTable2 form).map Prod.fst =
        ["title".data, "department".data, "company".data, "description".data,
         "streetAddress".data, "l".data, "st".data, "postalCode".data] := rfl
    rw [he] at hb
    have : ∀ x ∈ ["title".data, "department".data, "company".data, "description".data,
         "streetAddress".data, "l".data, "st".data, "postalCode".data],
        x ∈ skipList := by decide
    exact this b hb
  unfold fixedMods at h
  rcases List.mem_append.mp h with h | h
  · rcases List.mem_append.mp h with h | h
    · rcases List.mem_append.mp h with h | h
      · rcases List.mem_append.mp h with h | h
        · rcases List.mem_append.mp h with h | h
          · exact hsub1 _ (textMods_attr_mem_keys h)
          · rcases dirtyMod_attr h with ⟨rfl, -⟩
            show ("userAccountControl".data : Str) ∈ skipList
            decide
        · rcases dirtyMod_attr h with ⟨rfl, -⟩
          show ("pwdLastSet".data : Str) ∈ skipList
          decide
      · rw [pwdPart_attr h]; decide
    · exact hsub2 _ (textMods_attr_mem_keys h)
  · rcases countryMods_attr h with e | e | e <;> rw [e] <;> decide

end UserWindow

namespace UserWindow

/-- An `applied` result means the password inputs did not mismatch and the
result carries exactly the assembled modification dict. -/
theorem saveChanges_applied {snapshot : Snapshot} {dirty : List Str} {form : FormState}
    {mods : List ModReq} (h : saveChanges snapshot dirty form = .applied mods) :
    ¬(form.newPassword ≠ [] ∧ form.newPassword ≠ form.confirmPassword) ∧
      mods = allMods snapshot dirty form := by
  unfold saveChanges at h
  split at h
  · exact absurd h (by simp)
  · next hp =>
    split at h
    · exact absurd h (by simp)
    · refine ⟨hp, ?_⟩
      injection h with h
      exact h.symm

theorem mem_attr_fixedMods {snapshot : Snapshot} {dirty : List Str} {form : FormState}
    {a : Str} :
    a ∈ (fixedMods snapshot dirty form).map ModReq.attr ↔
      ((a ∈ (textTable1 form).map Prod.fst ∧ a ∈ dirty)
        ∨ (a = "userAccountControl".data ∧ a ∈ dirty)
        ∨ (a = "pwdLastSet".data ∧ a ∈ dirty)
        ∨ (a = "unicodePwd".data ∧ form.newPassword ≠ [] ∧
            form.newPassword = form.confirmPassword)
        ∨ (a ∈ (textTable2 form).map Prod.fst ∧ a ∈ dirty)
        ∨ (("country".data : Str) ∈ dirty ∧ form.countrySel.isSome ∧
            (a = "c".data ∨ a = "co".data ∨ a = "countryCode".data))) := by
  unfold fixedMods
  simp only [List.map_append, List.mem_append, mem_attr_textMods, mem_attr_dirtyMod,
    mem_attr_pwdPart, mem_attr_countryMods, or_assoc]

theorem mem_directAttrs (form : FormState) {a : Str} :
    a ∈ directAttrs ↔
      a ∈ (textTable1 form).map Prod.fst ∨ a = "userAccountControl".data ∨
        a = "pwdLastSet".data ∨ a ∈ (textTable2 form).map Prod.fst := by
  have e1 : (textTable1 form).map Prod.fst =
      ["givenName".data, "sn".data, "displayName".data, "mail".data,
       "telephoneNumber".data, "mobile".data, "userPrincipalName".data] := rfl
  have e2 : (textTable2 form).map Prod.fst =
      ["title".data, "department".data, "company".data, "description".data,
       "streetAddress".data, "l".data, "st".data, "postalCode".data] := rfl
  rw [e1, e2]
  simp only [directAttrs, List.mem_cons, List.not_mem_nil, or_false, or_assoc]

/-- Over a start set that lies inside the skip list (as the fixed blocks'
names do), the custom loop contributes exactly the tab entries outside the
skip list whose value differs from the snapshot. -/
theorem mem_attr_customPart_skip {snapshot : Snapshot} {a : Str}
    {items : List (Str × AttrVal)} {already : List Str}
    (hnd : (items.map Prod.fst).Nodup) (hsub : ∀ b ∈ already, b ∈ skipList) :
    a ∈ (customPart snapshot items already).map ModReq.attr ↔
      ∃ v, (a, v) ∈ items ∧ a ∉ skipList ∧ v ≠ snapGetD snapshot a := by
  rw [mem_attr_customPart hnd]
  constructor
  · rintro ⟨v, hv, _, h2, h3⟩
    exact ⟨v, hv, h2, h3⟩
  · rintro ⟨v, hv, h2, h3⟩
    exact ⟨v, hv, fun hc => h2 (hsub a hc), h2, h3⟩

end UserWindow

/-! ## Claim C2 -/

/-- C2 counterexample: an attributes-tab entry `info` whose value differs
from the snapshot is written although the dirty set is empty (and it is
not the password attribute), so the ChangeSet is not bounded by the dirty
set plus password. -/
theorem UserWindow.changeset_contains_untracked_custom_attribute :
    UserWindow.saveChanges
        [(("info".data : Str), .one (.str "old".data))] []
        { UserWindow.emptyForm with
            customAttributes := [(("info".data : Str), .one (.str "new".data))] }
      = .applied [⟨"info".data, .replace, [.str "new".data]⟩] ∧
    (("info".data : Str) ∉ ([] : List Str)) ∧
    ("info".data : Str) ≠ "unicodePwd".data := by
  refine ⟨by decide, by decide, by decide⟩

/-- C2 (amended): an attribute name is written by `save_changes` exactly
when it is a dirty directly-mapped attribute, one of the three country
attributes with the `country` flag dirty and a selection present, the
password attribute on a successful reset, or an attributes-tab entry
outside the handled set whose value differs from the snapshot (these
bypass the dirty mechanism); in particular every dirty directly-mapped
attribute is written. -/
theorem UserWindow.changeset_names_characterization (snapshot : UserWindow.Snapshot)
    (dirty : List Str) (form : UserWindow.FormState) (mods : List UserWindow.ModReq)
    (hnd : (form.customAttributes.map Prod.fst).Nodup)
    (h : UserWindow.saveChanges snapshot dirty form = .applied mods) (a : Str) :
    a ∈ mods.map UserWindow.ModReq.attr ↔
      (a ∈ UserWindow.directAttrs ∧ a ∈ dirty)
      ∨ (("country".data : Str) ∈ dirty ∧ form.countrySel.isSome ∧
          (a = "c".data ∨ a = "co".data ∨ a = "countryCode".data))
      ∨ (a = "unicodePwd".data ∧ form.newPassword ≠ [] ∧
          form.newPassword = form.confirmPassword)
      ∨ (∃ v, (a, v) ∈ form.customAttributes ∧ a ∉ UserWindow.skipList ∧
          v ≠ UserWindow.snapGetD snapshot a) := by
  obtain ⟨-, rfl⟩ := UserWindow.saveChanges_applied h
  have hfs : ∀ b ∈ (UserWindow.fixedMods snapshot dirty form).map UserWindow.ModReq.attr,
      b ∈ UserWindow.skipList := by
    intro b hb
    obtain ⟨m, hm, rfl⟩ := List.mem_map.mp hb
    exact UserWindow.fixedMods_attr_mem_skip hm
  have hfix : a ∈ (UserWindow.fixedMods snapshot dirty form).map UserWindow.ModReq.attr ↔
      ((a ∈ UserWindow.directAttrs ∧ a ∈ dirty)
        ∨ ((("country".data : Str) ∈ dirty ∧ form.countrySel.isSome ∧
            (a = "c".data ∨ a = "co".data ∨ a = "countryCode".data))
        ∨ (a = "unicodePwd".data ∧ form.newPassword ≠ [] ∧
            form.newPassword = form.confirmPassword))) := by
    rw [UserWindow.mem_attr_fixedMods, UserWindow.mem_directAttrs form]
    constructor
    · rintro (⟨h1, hd⟩ | ⟨h1, hd⟩ | ⟨h1, hd⟩ | hpw | ⟨h1, hd⟩ | hcy)
      · exact Or.inl ⟨Or.inl h1, hd⟩
      · exact Or.inl ⟨Or.inr (Or.inl h1), hd⟩
      · exact Or.inl ⟨Or.inr (Or.inr (Or.inl h1)), hd⟩
      · exact Or.inr (Or.inr hpw)
      · exact Or.inl ⟨Or.inr (Or.inr (Or.inr h1)), hd⟩
      · exact Or.inr (Or.inl hcy)
    · rintro (⟨h1 | h1 | h1 | h1, hd⟩ | hcy | hpw)
      · exact Or.inl ⟨h1, hd⟩
      · exact Or.inr (Or.inl ⟨h1, hd⟩)
      · exact Or.inr (Or.inr (Or.inl ⟨h1, hd⟩))
      · exact Or.inr (Or.inr (Or.inr (Or.inr (Or.inl ⟨h1, hd⟩))))
      · exact Or.inr (Or.inr (Or.inr (Or.inr (Or.inr hcy))))
      · exact Or.inr (Or.inr (Or.inr (Or.inl hpw)))
  unfold UserWindow.allMods
  rw [List.map_append, List.mem_append, UserWindow.mem_attr_customPart_skip hnd hfs,
    hfix, or_assoc, or_assoc]

/-- Witness for C2: one dirty text attribute, an untouched tab entry equal
to the snapshot, and the characterization instantiated at `givenName`. -/
theorem UserWindow.changeset_names_characterization_witness :
    UserWindow.saveChanges [(("info".data : Str), .one (.str "x".data))]
        [("givenName".data : Str)]
        { UserWindow.emptyForm with
            firstName := "bob".data,
            customAttributes := [(("info".data : Str), .one (.str "x".data))] }
      = .applied [⟨"givenName".data, .replace, [.str "bob".data]⟩] ∧
    (("givenName".data : Str) ∈
        ([⟨"givenName".data, .replace, [.str "bob".data]⟩] :
          List UserWindow.ModReq).map UserWindow.ModReq.attr ↔
      (("givenName".data : Str) ∈ UserWindow.directAttrs ∧
          ("givenName".data : Str) ∈ [("givenName".data : Str)])
      ∨ ((("country".data : Str) ∈ [("givenName".data : Str)]) ∧
          ({ UserWindow.emptyForm with
              firstName := "bob".data,
              customAttributes :=
                [(("info".data : Str), .one (.str "x".data))] } :
            UserWindow.FormState).countrySel.isSome ∧
          (("givenName".data : Str) = "c".data ∨ ("givenName".data : Str) = "co".data ∨
            ("givenName".data : Str) = "countryCode".data))
      ∨ (("givenName".data : Str) = "unicodePwd".data ∧
          ("" : String).data ≠ [] ∧ ("" : String).data = ("" : String).data)
      ∨ (∃ v, ((("givenName".data : Str), v) ∈
            [(("info".data : Str), (.one (.str "x".data) : UserWindow.AttrVal))]) ∧
          ("givenName".data : Str) ∉ UserWindow.skipList ∧
          v ≠ UserWindow.snapGetD [(("info".data : Str), .one (.str "x".data))]
            ("givenName".data : Str))) := by
  constructor
  · decide
  · exact UserWindow.changeset_names_characterization
      [(("info".data : Str), .one (.str "x".data))] [("givenName".data : Str)]
      { UserWindow.emptyForm with
          firstName := "bob".data,
          customAttributes := [(("info".data : Str), .one (.str "x".data))] }
      [⟨"givenName".data, .replace, [.str "bob".data]⟩]
      (by decide) (by decide) ("givenName".data)

namespace UserWindow

theorem textTable1_keys (form : FormState) :
    (textTable1 form).map Prod.fst =
      ["givenName".data, "sn".data, "displayName".data, "mail".data,
       "telephoneNumber".data, "mobile".data, "userPrincipalName".data] := rfl

theorem textTable2_keys (form : FormState) :
    (textTable2 form).map Prod.fst =
      ["title".data, "department".data, "company".data, "description".data,
       "streetAddress".data, "l".data, "st".data, "postalCode".data] := rfl

theorem filter_eq_nil_of_attrs {q : ModReq → Bool} {l : List ModReq}
    (h : ∀ m ∈ l, q m = false) : l.filter q = [] := by
  rw [List.filter_eq_nil_iff]
  intro m hm
  simp [h m hm]

theorem filter_dirtyMod_ne {dirty : List Str} {k n : Str} {vs : List Val} (hk : k ≠ n) :
    (dirtyMod dirty k vs).filter (fun m => m.attr = n) = [] := by
  unfold dirtyMod
  split <;> simp [hk]

theorem filter_dirtyMod_eq {dirty : List Str} {n : Str} {vs : List Val} :
    (dirtyMod dirty n vs).filter (fun m => m.attr = n) = dirtyMod dirty n vs := by
  unfold dirtyMod
  split <;> simp

theorem filter_textMods_keyless {dirty : List Str} {n : Str} :
    ∀ {table : List (Str × Str)}, n ∉ table.map Prod.fst →
      (textMods dirty table).filter (fun m => m.attr = n) = [] := by
  intro table
  induction table with
  | nil => intro _; simp [textMods]
  | cons p t ih =>
    intro hk
    obtain ⟨k, w⟩ := p
    simp only [List.map_cons, List.mem_cons, not_or] at hk
    obtain ⟨hk1, hk2⟩ := hk
    simp only [textMods, List.filter_append]
    rw [filter_dirtyMod_ne (Ne.symm hk1), ih hk2, List.append_nil]

theorem filter_textMods_key {dirty : List Str} {n v : Str} :
    ∀ {table : List (Str × Str)}, (table.map Prod.fst).Nodup → (n, v) ∈ table →
      n ∈ dirty →
      (textMods dirty table).filter (fun m => m.attr = n) = [⟨n, .replace, [.str v]⟩] := by
  intro table
  induction table with
  | nil => intro _ hm _; simp at hm
  | cons p t ih =>
    intro hnd hm hd
    obtain ⟨k, w⟩ := p
    simp only [List.map_cons, List.nodup_cons] at hnd
    obtain ⟨hknotin, hnd'⟩ := hnd
    simp only [textMods, List.filter_append]
    rcases List.mem_cons.mp hm with heq | hmt
    · cases heq
      rw [filter_dirtyMod_eq, filter_textMods_keyless hknotin, List.append_nil]
      unfold dirtyMod
      rw [if_pos hd]
    · have hkn : k ≠ n := fun hh => hknotin (hh ▸ List.mem_map_of_mem Prod.fst hmt)
      rw [filter_dirtyMod_ne hkn, ih hnd' hmt hd, List.nil_append]

theorem filter_pwdPart_ne {form : FormState} {n : Str}
    (h : ("unicodePwd".data : Str) ≠ n) :
    (pwdPart form).filter (fun m => m.attr = n) = [] := by
  unfold pwdPart
  split <;> simp [h]

theorem filter_pwdPart_self {form : FormState} :
    (pwdPart form).filter (fun m => m.attr = "unicodePwd".data) = pwdPart form := by
  unfold pwdPart
  split <;> simp

theorem filter_countryMods_ne {dirty : List Str} {form : FormState} {n : Str}
    (h1 : ("c".data : Str) ≠ n) (h2 : ("co".data : Str) ≠ n)
    (h3 : ("countryCode".data : Str) ≠ n) :
    (countryMods dirty form).filter (fun m => m.attr = n) = [] := by
  apply filter_eq_nil_of_attrs
  intro m hm
  rcases countryMods_attr hm with e | e | e <;> rw [e] <;> simp [h1, h2, h3]

theorem filter_customPart_skipname {snapshot : Snapshot}
    {items : List (Str × AttrVal)} {already : List Str} {n : Str}
    (h : n ∈ skipList) :
    (customPart snapshot items already).filter (fun m => m.attr = n) = [] := by
  apply filter_eq_nil_of_attrs
  intro m hm
  exact decide_eq_false (fun he => customPart_attr_not_skip hm (he.symm ▸ h))

end UserWindow

/-! ## Claim C3 -/

/-- C3: a directly-mapped text attribute marked dirty is written exactly
once, with the form's current value, for every snapshot — in particular
also when that value equals the snapshot's stored value (dirtiness is a
change-signal flag, not a value comparison). -/
theorem UserWindow.dirty_attribute_written_unconditionally
    (snapshot : UserWindow.Snapshot) (dirty : List Str) (form : UserWindow.FormState)
    (mods : List UserWindow.ModReq) (n v : Str)
    (h : UserWindow.saveChanges snapshot dirty form = .applied mods)
    (hmem : (n, v) ∈ UserWindow.textTable1 form ++ UserWindow.textTable2 form)
    (hdirty : n ∈ dirty) :
    mods.filter (fun m => m.attr = n) = [⟨n, .replace, [.str v]⟩] := by
  obtain ⟨-, rfl⟩ := UserWindow.saveChanges_applied h
  have hkeys : n ∈ UserWindow.textKeys := by
    rcases List.mem_append.mp hmem with hm | hm
    · have h1 := List.mem_map_of_mem Prod.fst hm
      rw [UserWindow.textTable1_keys] at h1
      exact (by decide : ∀ b ∈ ["givenName".data, "sn".data, "displayName".data,
        "mail".data, "telephoneNumber".data, "mobile".data,
        "userPrincipalName".data], b ∈ UserWindow.textKeys) n h1
    · have h1 := List.mem_map_of_mem Prod.fst hm
      rw [UserWindow.textTable2_keys] at h1
      exact (by decide : ∀ b ∈ ["title".data, "department".data, "company".data,
        "description".data, "streetAddress".data, "l".data, "st".data,
        "postalCode".data], b ∈ UserWindow.textKeys) n h1
  have hA : ("userAccountControl".data : Str) ≠ n := fun hh =>
    (by decide : ("userAccountControl".data : Str) ∉ UserWindow.textKeys)
      (by rw [hh]; exact hkeys)
  have hP : ("pwdLastSet".data : Str) ≠ n := fun hh =>
    (by decide : ("pwdLastSet".data : Str) ∉ UserWindow.textKeys)
      (by rw [hh]; exact hkeys)
  have hW : ("unicodePwd".data : Str) ≠ n := fun hh =>
    (by decide : ("unicodePwd".data : Str) ∉ UserWindow.textKeys)
      (by rw [hh]; exact hkeys)
  have hC : ("c".data : Str) ≠ n := fun hh =>
    (by decide : ("c".data : Str) ∉ UserWindow.textKeys) (by rw [hh]; exact hkeys)
  have hCo : ("co".data : Str) ≠ n := fun hh =>
    (by decide : ("co".data : Str) ∉ UserWindow.textKeys) (by rw [hh]; exact hkeys)
  have hCc : ("countryCode".data : Str) ≠ n := fun hh =>
    (by decide : ("countryCode".data : Str) ∉ UserWindow.textKeys)
      (by rw [hh]; exact hkeys)
  have hskip : n ∈ UserWindow.skipList :=
    (by decide : ∀ b ∈ UserWindow.textKeys, b ∈ UserWindow.skipList) n hkeys
  unfold UserWindow.allMods UserWindow.fixedMods
  simp only [List.filter_append]
  rw [UserWindow.filter_dirtyMod_ne hA, UserWindow.filter_dirtyMod_ne hP,
    UserWindow.filter_pwdPart_ne hW, UserWindow.filter_countryMods_ne hC hCo hCc,
    UserWindow.filter_customPart_skipname hskip]
  rcases List.mem_append.mp hmem with hm | hm
  · have hnd : ((UserWindow.textTable1 form).map Prod.fst).Nodup := by
      rw [UserWindow.textTable1_keys]; decide
    have hnot : n ∉ (UserWindow.textTable2 form).map Prod.fst := by
      rw [UserWindow.textTable2_keys]
      have h1 := List.mem_map_of_mem Prod.fst hm
      rw [UserWindow.textTable1_keys] at h1
      exact (by decide : ∀ b ∈ ["givenName".data, "sn".data, "displayName".data,
        "mail".data, "telephoneNumber".data, "mobile".data, "userPrincipalName".data],
        b ∉ ["title".data, "department".data, "company".data, "description".data,
          "streetAddress".data, "l".data, "st".data, "postalCode".data]) n h1
    rw [UserWindow.filter_textMods_key hnd hm hdirty,
      UserWindow.filter_textMods_keyless hnot]
    simp
  · have hnd : ((UserWindow.textTable2 form).map Prod.fst).Nodup := by
      rw [UserWindow.textTable2_keys]; decide
    have hnot : n ∉ (UserWindow.textTable1 form).map Prod.fst := by
      rw [UserWindow.textTable1_keys]
      have h1 := List.mem_map_of_mem Prod.fst hm
      rw [UserWindow.textTable2_keys] at h1
      exact (by decide : ∀ b ∈ ["title".data, "department".data, "company".data,
        "description".data, "streetAddress".data, "l".data, "st".data,
        "postalCode".data], b ∉ ["givenName".data, "sn".data, "displayName".data,
          "mail".data, "telephoneNumber".data, "mobile".data,
          "userPrincipalName".data]) n h1
    rw [UserWindow.filter_textMods_keyless hnot,
      UserWindow.filter_textMods_key hnd hm hdirty]
    simp

/-- Witness for C3 with the form value equal to the snapshot value: the
write is still emitted. -/
theorem UserWindow.dirty_attribute_written_unconditionally_witness :
    UserWindow.saveChanges [(("givenName".data : Str), .one (.str "bob".data))]
        [("givenName".data : Str)]
        { UserWindow.emptyForm with firstName := "bob".data }
      = .applied [⟨"givenName".data, .replace, [.str "bob".data]⟩] ∧
    ([⟨"givenName".data, .replace, [.str "bob".data]⟩] :
        List UserWindow.ModReq).filter (fun m => m.attr = ("givenName".data : Str)) =
      [⟨"givenName".data, .replace, [.str "bob".data]⟩] := by
  constructor
  · decide
  · exact UserWindow.dirty_attribute_written_unconditionally
      [(("givenName".data : Str), .one (.str "bob".data))] [("givenName".data : Str)]
      { UserWindow.emptyForm with firstName := "bob".data }
      [⟨"givenName".data, .replace, [.str "bob".data]⟩] ("givenName".data) ("bob".data)
      (by decide) (by decide) (by decide)

/-! ## Claim C4 -/

/-- C4: a non-empty new password that differs from the confirmation aborts
`save_changes` with the distinct password-mismatch outcome and no
ChangeSet; if the two inputs are non-empty and equal, exactly one
`unicodePwd` replace carrying the quoted UTF-16LE encoding is in the
ChangeSet, regardless of the dirty set. -/
theorem UserWindow.password_reset_validation (snapshot : UserWindow.Snapshot)
    (dirty : List Str) (form : UserWindow.FormState) :
    (form.newPassword ≠ [] → form.newPassword ≠ form.confirmPassword →
      UserWindow.saveChanges snapshot dirty form = .pwdMismatch ∧
        UserWindow.SaveResult.pwdMismatch ≠ UserWindow.SaveResult.noChanges ∧
        ∀ mods, UserWindow.SaveResult.pwdMismatch ≠ UserWindow.SaveResult.applied mods) ∧
    (form.newPassword ≠ [] → form.newPassword = form.confirmPassword →
      ∀ mods, UserWindow.saveChanges snapshot dirty form = .applied mods →
        mods.filter (fun m => m.attr = ("unicodePwd".data : Str)) =
          [⟨"unicodePwd".data, .replace,
            [.bytes (UEHelpers.encode_password form.newPassword)]⟩]) := by
  constructor
  · intro h1 h2
    refine ⟨?_, by decide, fun mods => by simp⟩
    unfold UserWindow.saveChanges
    rw [if_pos ⟨h1, h2⟩]
  · intro h1 h2 mods h
    obtain ⟨-, rfl⟩ := UserWindow.saveChanges_applied h
    unfold UserWindow.allMods UserWindow.fixedMods
    simp only [List.filter_append]
    rw [UserWindow.filter_textMods_keyless
        (by rw [UserWindow.textTable1_keys]; decide),
      UserWindow.filter_textMods_keyless
        (by rw [UserWindow.textTable2_keys]; decide),
      UserWindow.filter_dirtyMod_ne (by decide),
      UserWindow.filter_dirtyMod_ne (by decide),
      UserWindow.filter_countryMods_ne (by decide) (by decide) (by decide),
      UserWindow.filter_customPart_skipname (by decide),
      UserWindow.filter_pwdPart_self]
    unfold UserWindow.pwdPart
    rw [if_pos ⟨h1, h2⟩]
    simp

/-- Witness for C4: the mismatch outcome at one concrete form and the
single password modification at another. -/
theorem UserWindow.password_reset_validation_witness :
    UserWindow.saveChanges [] []
        { UserWindow.emptyForm with
            newPassword := "alpha".data, confirmPassword := "beta".data }
      = .pwdMismatch ∧
    ([⟨"unicodePwd".data, .replace,
        [.bytes (UEHelpers.encode_password "hunter".data)]⟩] :
      List UserWindow.ModReq).filter (fun m => m.attr = ("unicodePwd".data : Str)) =
      [⟨"unicodePwd".data, .replace,
        [.bytes (UEHelpers.encode_password "hunter".data)]⟩] := by
  constructor
  · exact ((UserWindow.password_reset_validation [] []
      { UserWindow.emptyForm with
          newPassword := "alpha".data, confirmPassword := "beta".data }).1
      (by decide) (by decide)).1
  · exact (UserWindow.password_reset_validation [] []
      { UserWindow.emptyForm with
          newPassword := "hunter".data, confirmPassword := "hunter".data }).2
      (by decide) (by decide)
      [⟨"unicodePwd".data, .replace,
        [.bytes (UEHelpers.encode_password "hunter".data)]⟩]
      (by decide)

/-! ## Claim C9 -/

/-- C9: whenever the `country` flag is dirty and the combo has a selection
(the running UI always has one: the combo is populated at construction and
only non-negative indices are ever set), exactly three modifications are
written for it in the one call: the two-letter code under `c`, the display
name under `co`, and the numeric code under `countryCode`. -/
theorem UserWindow.country_dirty_three_mods (snapshot : UserWindow.Snapshot)
    (dirty : List Str) (form : UserWindow.FormState) (mods : List UserWindow.ModReq)
    (cs : UserWindow.CountrySel)
    (h : UserWindow.saveChanges snapshot dirty form = .applied mods)
    (hdirty : ("country".data : Str) ∈ dirty)
    (hsel : form.countrySel = some cs) :
    mods.filter (fun m => m.attr = ("c".data : Str) ∨ m.attr = ("co".data : Str) ∨
        m.attr = ("countryCode".data : Str)) =
      [⟨"c".data, .replace, [.str cs.code]⟩,
       ⟨"co".data, .replace, [.str cs.name]⟩,
       ⟨"countryCode".data, .replace, [.str cs.num]⟩] := by
  obtain ⟨-, rfl⟩ := UserWindow.saveChanges_applied h
  unfold UserWindow.allMods UserWindow.fixedMods
  simp only [List.filter_append]
  have ht1 : (UserWindow.textMods dirty (UserWindow.textTable1 form)).filter
      (fun m => m.attr = ("c".data : Str) ∨ m.attr = ("co".data : Str) ∨
        m.attr = ("countryCode".data : Str)) = [] := by
    apply UserWindow.filter_eq_nil_of_attrs
    intro m hm
    have h1 := UserWindow.textMods_attr_mem_keys hm
    rw [UserWindow.textTable1_keys] at h1
    exact decide_eq_false ((by decide : ∀ b ∈ ["givenName".data, "sn".data,
      "displayName".data, "mail".data, "telephoneNumber".data, "mobile".data,
      "userPrincipalName".data], ¬(b = ("c".data : Str) ∨ b = ("co".data : Str) ∨
        b = ("countryCode".data : Str))) m.attr h1)
  have ht2 : (UserWindow.textMods dirty (UserWindow.textTable2 form)).filter
      (fun m => m.attr = ("c".data : Str) ∨ m.attr = ("co".data : Str) ∨
        m.attr = ("countryCode".data : Str)) = [] := by
    apply UserWindow.filter_eq_nil_of_attrs
    intro m hm
    have h1 := UserWindow.textMods_attr_mem_keys hm
    rw [UserWindow.textTable2_keys] at h1
    exact decide_eq_false ((by decide : ∀ b ∈ ["title".data, "department".data,
      "company".data, "description".data, "streetAddress".data, "l".data, "st".data,
      "postalCode".data], ¬(b = ("c".data : Str) ∨ b = ("co".data : Str) ∨
        b = ("countryCode".data : Str))) m.attr h1)
  have hu : (UserWindow.dirtyMod dirty ("userAccountControl".data)
      [.int (UserWindow.computedUac snapshot form)]).filter
      (fun m => m.attr = ("c".data : Str) ∨ m.attr = ("co".data : Str) ∨
        m.attr = ("countryCode".data : Str)) = [] := by
    unfold UserWindow.dirtyMod
    split <;> simp
  have hp : (UserWindow.dirtyMod dirty ("pwdLastSet".data)
      [.int (if form.pwdExpiredChk then 0 else -1)]).filter
      (fun m => m.attr = ("c".data : Str) ∨ m.attr = ("co".data : Str) ∨
        m.attr = ("countryCode".data : Str)) = [] := by
    unfold UserWindow.dirtyMod
    split <;> simp
  have hw : (UserWindow.pwdPart form).filter
      (fun m => m.attr = ("c".data : Str) ∨ m.attr = ("co".data : Str) ∨
        m.attr = ("countryCode".data : Str)) = [] := by
    unfold UserWindow.pwdPart
    split <;> simp
  have hcu : ∀ already, (UserWindow.customPart snapshot form.customAttributes
      already).filter
      (fun m => m.attr = ("c".data : Str) ∨ m.attr = ("co".data : Str) ∨
        m.attr = ("countryCode".data : Str)) = [] := by
    intro already
    apply UserWindow.filter_eq_nil_of_attrs
    intro m hm
    refine decide_eq_false (fun hdis => ?_)
    apply UserWindow.customPart_attr_not_skip hm
    rcases hdis with e | e | e <;> rw [e] <;> decide
  have hcy : (UserWindow.countryMods dirty form).filter
      (fun m => m.attr = ("c".data : Str) ∨ m.attr = ("co".data : Str) ∨
        m.attr = ("countryCode".data : Str)) = UserWindow.countryMods dirty form := by
    rw [List.filter_eq_self]
    intro m hm
    rcases UserWindow.countryMods_attr hm with e | e | e <;> simp [e]
  rw [ht1, ht2, hu, hp, hw, hcu, hcy]
  unfold UserWindow.countryMods
  rw [if_pos hdirty, hsel]
  simp

/-- Witness for C9 at a concrete country selection. -/
theorem UserWindow.country_dirty_three_mods_witness :
    UserWindow.saveChanges [] [("country".data : Str)]
        { UserWindow.emptyForm with
            countrySel := some ⟨"United States".data, "US".data, "840".data⟩ }
      = .applied
        [⟨"c".data, .replace, [.str "US".data]⟩,
         ⟨"co".data, .replace, [.str "United States".data]⟩,
         ⟨"countryCode".data, .replace, [.str "840".data]⟩] ∧
    ([⟨"c".data, .replace, [.str "US".data]⟩,
      ⟨"co".data, .replace, [.str "United States".data]⟩,
      ⟨"countryCode".data, .replace, [.str "840".data]⟩] :
        List UserWindow.ModReq).filter
      (fun m => m.attr = ("c".data : Str) ∨ m.attr = ("co".data : Str) ∨
        m.attr = ("countryCode".data : Str)) =
      [⟨"c".data, .replace, [.str "US".data]⟩,
       ⟨"co".data, .replace, [.str "United States".data]⟩,
       ⟨"countryCode".data, .replace, [.str "840".data]⟩] := by
  constructor
  · decide
  · exact UserWindow.country_dirty_three_mods [] [("country".data : Str)]
      { UserWindow.emptyForm with
          countrySel := some ⟨"United States".data, "US".data, "840".data⟩ }
      [⟨"c".data, .replace, [.str "US".data]⟩,
       ⟨"co".data, .replace, [.str "United States".data]⟩,
       ⟨"countryCode".data, .replace, [.str "840".data]⟩]
      ⟨"United States".data, "US".data, "840".data⟩
      (by decide) (by decide) (by decide)

/-! ## Claim C5 -/

/-- C5: with a snapshot holding `userAccountControl = 512`, the disabled
checkbox checked, the other two flag checkboxes unchecked, only
`userAccountControl` dirty, no password reset and no tab changes,
`save_changes` produces exactly one modification: a replace of
`userAccountControl` with 514. -/
theorem UserWindow.uac_disable_scenario (snapshot : UserWindow.Snapshot)
    (form : UserWindow.FormState)
    (huac : UserWindow.alookup snapshot ("userAccountControl".data) =
      some (.one (.int 512)))
    (hd : form.disabledChk = true) (hp : form.pwdNeverExpiresChk = false)
    (hc : form.cannotChangePwdChk = false)
    (hpwd : form.newPassword = []) (hcustom : form.customAttributes = []) :
    UserWindow.saveChanges snapshot [("userAccountControl".data : Str)] form =
      .applied [⟨"userAccountControl".data, .replace, [.int 514]⟩] := by
  have huac2 : UserWindow.computedUac snapshot form = 514 := by
    unfold UserWindow.computedUac UserWindow.snapUac
    rw [huac, hd, hp, hc]
    decide
  have hall : UserWindow.allMods snapshot [("userAccountControl".data : Str)] form =
      [⟨"userAccountControl".data, .replace, [.int 514]⟩] := by
    unfold UserWindow.allMods UserWindow.fixedMods
    rw [huac2, hcustom]
    simp [UserWindow.textMods, UserWindow.dirtyMod, UserWindow.textTable1,
      UserWindow.textTable2, UserWindow.pwdPart, UserWindow.countryMods,
      UserWindow.customPart, hpwd]
  unfold UserWindow.saveChanges
  rw [if_neg (by simp [hpwd]), hall]
  simp

/-- Witness for C5 at a concrete snapshot and form. -/
theorem UserWindow.uac_disable_scenario_witness :
    UserWindow.alookup [(("userAccountControl".data : Str),
        (.one (.int 512) : UserWindow.AttrVal))] ("userAccountControl".data) =
      some (.one (.int 512)) ∧
    UserWindow.saveChanges
        [(("userAccountControl".data : Str), .one (.int 512))]
        [("userAccountControl".data : Str)]
        { UserWindow.emptyForm with disabledChk := true } =
      .applied [⟨"userAccountControl".data, .replace, [.int 514]⟩] := by
  constructor
  · decide
  · exact UserWindow.uac_disable_scenario
      [(("userAccountControl".data : Str), .one (.int 512))]
      { UserWindow.emptyForm with disabledChk := true }
      (by decide) (by decide) (by decide) (by decide) (by decide) (by decide)

/-! ## Claim C10 -/

namespace UserWindow

theorem alookup_append_some {β : Type} {l₁ l₂ : List (Str × β)} {k : Str} {v : β}
    (h : alookup l₁ k = some v) : alookup (l₁ ++ l₂) k = some v := by
  induction l₁ with
  | nil => simp [alookup] at h
  | cons p t ih =>
    obtain ⟨a, b⟩ := p
    rw [List.cons_append]
    simp only [alookup] at h ⊢
    by_cases hak : a = k
    · rw [if_pos hak] at h ⊢
      exact h
    · rw [if_neg hak] at h ⊢
      exact ih h

/-- `create_user` never reads the "Password never expires" checkbox. -/
theorem createUser_neverExpires_irrelevant (form : CreateForm) (search : SearchFn)
    (b : Bool) :
    createUser { form with neverExpiresChk := b } search = createUser form search := rfl

end UserWindow

/-- C10: whatever the state of the "Password never expires" checkbox, a
created entry's initial attribute set carries the fixed bitmask
`userAccountControl = 66048`; only the "must change password at next
logon" checkbox is honored, through the follow-up `pwdLastSet = 0`
modification. -/
theorem UserWindow.create_uac_fixed_and_pwd_followup (form : UserWindow.CreateForm)
    (search : SearchFn) (attrs : List (Str × UserWindow.AttrVal))
    (followUp : Option UserWindow.ModReq)
    (h : UserWindow.createUser form search = .created attrs followUp) :
    UserWindow.alookup attrs ("userAccountControl".data) = some (.one (.int 66048)) ∧
    followUp = (if form.changePasswordChk then
      some ⟨"pwdLastSet".data, .replace, [.int 0]⟩ else none) ∧
    ∀ b, UserWindow.createUser { form with neverExpiresChk := b } search =
      .created attrs followUp := by
  have h0 := h
  simp only [UserWindow.createUser] at h
  split at h
  · exact absurd h (by simp)
  · split at h
    · exact absurd h (by simp)
    · split at h
      · exact absurd h (by simp)
      · injection h with h1 h2
        subst h1
        subst h2
        refine ⟨?_, rfl, fun b =>
          (UserWindow.createUser_neverExpires_irrelevant form search b).trans h0⟩
        apply UserWindow.alookup_append_some
        apply UserWindow.alookup_append_some
        apply UserWindow.alookup_append_some
        apply UserWindow.alookup_append_some
        apply UserWindow.alookup_append_some
        apply UserWindow.alookup_append_some
        apply UserWindow.alookup_append_some
        apply UserWindow.alookup_append_some
        apply UserWindow.alookup_append_some
        rfl

/-- Witness for C10: a concrete create form with the checkbox unchecked
still writes 66048, and the follow-up reset is present exactly because the
"must change" checkbox is checked. -/
theorem UserWindow.create_uac_fixed_and_pwd_followup_witness :
    UserWindow.createUser
        { firstName := "Ann".data, lastName := "Lee".data, displayNameF := [],
          samAccount := "ann.lee".data, upnPre := "ann.lee".data,
          upnSuf := "@x.com".data, password := "pw".data,
          confirmPassword := "pw".data, contractorChk := false,
          changePasswordChk := true, neverExpiresChk := false, jobTitle := [],
          departmentF := [], companyF := [], street := [], city := [],
          stateF := [], postal := [], countrySel := none, customAttributes := [] }
        (fun _ => .ok [])
      = .created
        [("objectClass".data, .many [.str "top".data, .str "person".data,
            .str "organizationalPerson".data, .str "user".data]),
         ("cn".data, .one (.str "Ann Lee".data)),
         ("sn".data, .one (.str "Lee".data)),
         ("givenName".data, .one (.str "Ann".data)),
         ("displayName".data, .one (.str "Ann Lee".data)),
         ("sAMAccountName".data, .one (.str "ann.lee".data)),
         ("userPrincipalName".data, .one (.str "ann.lee@x.com".data)),
         ("mail".data, .one (.str "ann.lee@x.com".data)),
         ("userAccountControl".data, .one (.int 66048)),
         ("unicodePwd".data, .one (.bytes [34, 0, 112, 0, 119, 0, 34, 0]))]
        (some ⟨"pwdLastSet".data, .replace, [.int 0]⟩) ∧
    UserWindow.alookup
        [(("objectClass".data : Str),
            (.many [.str "top".data, .str "person".data,
              .str "organizationalPerson".data, .str "user".data] :
              UserWindow.AttrVal)),
         ("cn".data, .one (.str "Ann Lee".data)),
         ("sn".data, .one (.str "Lee".data)),
         ("givenName".data, .one (.str "Ann".data)),
         ("displayName".data, .one (.str "Ann Lee".data)),
         ("sAMAccountName".data, .one (.str "ann.lee".data)),
         ("userPrincipalName".data, .one (.str "ann.lee@x.com".data)),
         ("mail".data, .one (.str "ann.lee@x.com".data)),
         ("userAccountControl".data, .one (.int 66048)),
         ("unicodePwd".data, .one (.bytes [34, 0, 112, 0, 119, 0, 34, 0]))]
        ("userAccountControl".data) = some (.one (.int 66048)) := by
  constructor
  · decide
  · exact (UserWindow.create_uac_fixed_and_pwd_followup
      { firstName := "Ann".data, lastName := "Lee".data, displayNameF := [],
        samAccount := "ann.lee".data, upnPre := "ann.lee".data,
        upnSuf := "@x.com".data, password := "pw".data,
        confirmPassword := "pw".data, contractorChk := false,
        changePasswordChk := true, neverExpiresChk := false, jobTitle := [],
        departmentF := [], companyF := [], street := [], city := [],
        stateF := [], postal := [], countrySel := none, customAttributes := [] }
      (fun _ => .ok [])
      [("objectClass".data, .many [.str "top".data, .str "person".data,
          .str "organizationalPerson".data, .str "user".data]),
       ("cn".data, .one (.str "Ann Lee".data)),
       ("sn".data, .one (.str "Lee".data)),
       ("givenName".data, .one (.str "Ann".data)),
       ("displayName".data, .one (.str "Ann Lee".data)),
       ("sAMAccountName".data, .one (.str "ann.lee".data)),
       ("userPrincipalName".data, .one (.str "ann.lee@x.com".data)),
       ("mail".data, .one (.str "ann.lee@x.com".data)),
       ("userAccountControl".data, .one (.int 66048)),
       ("unicodePwd".data, .one (.bytes [34, 0, 112, 0, 119, 0, 34, 0]))]
      (some ⟨"pwdLastSet".data, .replace, [.int 0]⟩) (by decide)).1
